import Mathlib

/-!
Shallow embedding of the web3-integration-recipes repository's core logic:
the error classifier / retry helper (`src/utils/contract-helpers/index.ts`),
the wallet connection hook
(`src/recipes/wallet-integration/metamask-connection/react/src/hooks/useWallet.ts`),
the transaction managers (`src/recipes/smart-contract-interaction/contract-calls/README.md`
and the secure transaction service), gas buffering, multicall batching and the
error logger.  JavaScript machine values are modelled with `Nat`/`Int`/`String`
and `Option` for `undefined`; fallible async calls are modelled with `Except`.
-/

/-- JS error `code` values: either a number (e.g. `4001`) or a string
(e.g. `"ACTION_REJECTED"`). -/
inductive ErrCode where
  | num (n : Int)
  | str (s : String)
deriving DecidableEq, Repr

/-- The `ErrorType` enum of `src/utils/contract-helpers/index.ts`. -/
inductive ErrorType where
  | USER_REJECTED
  | INSUFFICIENT_FUNDS
  | NETWORK_ERROR
  | CONTRACT_ERROR
  | VALIDATION_ERROR
  | UNKNOWN_ERROR
deriving DecidableEq, Repr

/-- An arbitrary upstream failure value, restricted to the fields the
repository actually reads: `code`, `message`, `reason`.  `none` models a
JS `undefined` field. -/
structure RawError where
  code : Option ErrCode := none
  message : Option String := none
  reason : Option String := none
deriving DecidableEq, Repr

/-- The `Web3Error` class: classified type, message and code.  The retained
`originalError` is carried as the raw cause. -/
structure Web3Error where
  type : ErrorType
  message : String
  code : Option ErrCode := none
  originalError : Option RawError := none
deriving DecidableEq, Repr

/-- A value thrown by an operation: either a plain upstream failure or an
already-classified `Web3Error` (the `instanceof Web3Error` case of
`ErrorParser.parse`). -/
inductive Thrown where
  | raw (e : RawError)
  | web3 (w : Web3Error)
deriving DecidableEq, Repr

/-- Substring search on character lists: does `pat` occur contiguously? -/
def charsContain (pat : List Char) : List Char → Bool
  | [] => pat.isEmpty
  | l@(_ :: rest) => pat.isPrefixOf l || charsContain pat rest

/-- JS `String.prototype.includes` for a fixed non-empty pattern: substring
containment on the character sequence. -/
def strIncludes (s pat : String) : Bool :=
  charsContain pat.data s.data

/-- JS `str.toLowerCase()` (character-wise lowering). -/
def strToLower (s : String) : String :=
  String.mk (s.data.map Char.toLower)

/-- JS truthiness of an optional string: `undefined` and `""` are falsy. -/
def strTruthy : Option String → Bool
  | none => false
  | some s => s ≠ ""

/-- JS `m || d` on an optional string: the default replaces both
`undefined` and the falsy empty string. -/
def jsOrStr (m : Option String) (d : String) : String :=
  match m with
  | none => d
  | some s => if s = "" then d else s

/-- TS default-parameter semantics: the default applies only to
`undefined`, an empty string is kept. -/
def getDUndef (m : Option String) (d : String) : String :=
  m.getD d

/-- A character matched by the regex metacharacter `.` (anything but a JS
line terminator). -/
def isDotChar (c : Char) : Bool :=
  !(c == '\n' || c == '\r' || c == ' ' || c == ' ')

/-- Greedy match of `(.+)'` at the start of `l`: the longest non-empty run
of `.`-characters followed by a literal quote.  Returns the capture. -/
def greedyCapture (l : List Char) : Option (List Char) :=
  let run := l.takeWhile isDotChar
  let ks := (List.range run.length).filter fun k => 1 ≤ k && run.getD k ' ' == '\''
  match ks.max? with
  | some k => some (run.take k)
  | none => none

/-- Leftmost match of the regex `/revert (.+)'/` over a character list:
scan for `"revert "`, then greedily capture up to a closing quote. -/
def findRevertMatch : List Char → Option (List Char)
  | [] => none
  | l@(_ :: rest) =>
    if ("revert ".data).isPrefixOf l then
      match greedyCapture (l.drop 7) with
      | some cap => some cap
      | none => findRevertMatch rest
    else
      findRevertMatch rest

namespace ErrorParser

/-- Source `ErrorParser.extractRevertReason`: apply `/revert (.+)'/` to the message
and return the capture, or `"Unknown reason"`. -/
def extractRevertReason (message : String) : String :=
  match findRevertMatch message.data with
  | some cap => String.mk cap
  | none => "Unknown reason"

/-- Whether a field's message (possibly `undefined`) contains a pattern;
`undefined?.includes(p)` is falsy. -/
def msgIncludes (e : RawError) (pat : String) : Bool :=
  match e.message with
  | some m => strIncludes m pat
  | none => false

/-- Source `error.reason || extractRevertReason(error.message)`. -/
def revertReasonOf (e : RawError) : String :=
  if strTruthy e.reason then
    e.reason.getD ""
  else
    extractRevertReason (e.message.getD "")

/-- Source `ErrorParser.parse` on a plain (non-`Web3Error`) failure value,
mirroring the branch order of the source. -/
def parse (e : RawError) : Web3Error :=
  if e.code = some (.num 4001) ∨ e.code = some (.str "ACTION_REJECTED") then
    { type := .USER_REJECTED,
      message := getDUndef e.message "Transaction rejected by user",
      code := some (.num 4001), originalError := some e }
  else if e.code = some (.str "INSUFFICIENT_FUNDS") then
    { type := .INSUFFICIENT_FUNDS,
      message := getDUndef e.message "Insufficient funds for transaction",
      code := some (.str "INSUFFICIENT_FUNDS"), originalError := some e }
  else if e.code = some (.str "NETWORK_ERROR") ∨ msgIncludes e "network" then
    { type := .NETWORK_ERROR,
      message := getDUndef e.message "Network connection failed",
      code := some (.str "NETWORK_ERROR"), originalError := some e }
  else if strTruthy e.reason ∨ msgIncludes e "revert" then
    { type := .CONTRACT_ERROR,
      message := "Contract reverted: " ++ revertReasonOf e,
      code := some (.str "CONTRACT_ERROR"), originalError := some e }
  else if e.code = some (.str "UNPREDICTABLE_GAS_LIMIT") then
    { type := .CONTRACT_ERROR,
      message := "Transaction would fail - check parameters",
      code := some (.str "CONTRACT_ERROR"), originalError := some e }
  else
    { type := .UNKNOWN_ERROR,
      message := jsOrStr e.message "An unexpected error occurred",
      code := e.code, originalError := some e }

/-- Source `ErrorParser.parse` including the `instanceof Web3Error` early return. -/
def parseAny : Thrown → Web3Error
  | .web3 w => w
  | .raw e => parse e

end ErrorParser

namespace ErrorHandler

/-- The retry loop of `ErrorHandler.handleWithRetry`, from the iteration with
`maxRetries - attempt = remaining` left before the final one.  The operation is
modelled as a map from the attempt index to that invocation's outcome.  Returns
the final result (`Except.error` models `throw`), the number of invocations of
the operation, and the list of back-off delays awaited between attempts. -/
def retryFrom {α : Type} (retryDelay : Nat) (op : Nat → Except Thrown α)
    (shouldRetry : Option (Web3Error → Bool)) (attempt : Nat) (remaining : Nat) :
    Except Web3Error α × Nat × List Nat :=
  match op attempt with
  | .ok v => (.ok v, 1, [])
  | .error thrown =>
    let lastError := ErrorParser.parseAny thrown
    -- Don't retry user-rejected errors
    if lastError.type = .USER_REJECTED then
      (.error lastError, 1, [])
    -- Custom retry logic
    else if (match shouldRetry with
             | some p => !(p lastError)
             | none => false) then
      (.error lastError, 1, [])
    else
      -- Don't retry on last attempt (`attempt === this.maxRetries`)
      match remaining with
      | 0 => (.error lastError, 1, [])
      | r + 1 =>
        -- Wait retryDelay * 2^attempt, then run the next iteration
        let next := retryFrom retryDelay op shouldRetry (attempt + 1) r
        (next.1, next.2.1 + 1, retryDelay * 2 ^ attempt :: next.2.2)
termination_by remaining

/-- Source `ErrorHandler.handleWithRetry` with configuration `maxRetries`
(default 3) and `retryDelay` (default 1000): the loop starts at attempt 0. -/
def handleWithRetry {α : Type} (maxRetries retryDelay : Nat)
    (op : Nat → Except Thrown α) (shouldRetry : Option (Web3Error → Bool)) :
    Except Web3Error α × Nat × List Nat :=
  retryFrom retryDelay op shouldRetry 0 maxRetries

end ErrorHandler

namespace TransactionErrorTracker

/-- Source `TransactionErrorTracker.isRetryable`. -/
def isRetryable (error : Web3Error) : Bool :=
  if error.type = .NETWORK_ERROR ∨ error.type = .UNKNOWN_ERROR then
    true
  else if error.type = .CONTRACT_ERROR then
    ["network", "timeout", "connection"].any fun msg =>
      strIncludes (strToLower error.message) msg
  else
    false

end TransactionErrorTracker

namespace GasUtils

/-- Source `GasUtils.estimateGasWithBuffer` success path: the gas estimate (a
non-negative BigInt, modelled as `Nat`) scaled by the buffer percentage with
truncating integer division. -/
def estimateGasWithBuffer (gasEstimate : Nat) (bufferPercent : Nat := 20) :
    Nat :=
  gasEstimate * (100 + bufferPercent) / 100

end GasUtils

/-! ## Wallet connection hook (`useWallet.ts`) -/

/-- The `WalletState` of `useWallet.ts`.  The opaque ethers provider and
signer objects are modelled by their presence (`Option Unit`). -/
structure WalletState where
  address : Option String := none
  provider : Option Unit := none
  signer : Option Unit := none
  chainId : Option Nat := none
  isConnecting : Bool := false
  error : Option String := none
deriving DecidableEq, Repr

/-- The initial wallet state of the hook. -/
def emptyWalletState : WalletState := {}

/-- The browser `localStorage` key-value store, as an association list. -/
structure Storage where
  items : List (String × String) := []
deriving DecidableEq, Repr

/-- Source `localStorage.getItem`. -/
def Storage.getItem (st : Storage) (key : String) : Option String :=
  (st.items.find? fun kv => kv.1 = key).map fun kv => kv.2

/-- Source `localStorage.setItem`. -/
def Storage.setItem (st : Storage) (key value : String) : Storage :=
  ⟨(key, value) :: st.items.filter fun kv => kv.1 ≠ key⟩

/-- Source `localStorage.removeItem`. -/
def Storage.removeItem (st : Storage) (key : String) : Storage :=
  ⟨st.items.filter fun kv => kv.1 ≠ key⟩

/-- The external wallet environment seen by one `connect()` call: whether
`window.ethereum` exists and the outcomes of the awaited upstream calls. -/
structure WalletEnv where
  hasEthereum : Bool
  requestAccounts : Except RawError (List String)
  getSigner : Except RawError Unit
  getNetwork : Except RawError Nat
deriving Repr

/-- Source `getErrorMessage` at the bottom of `useWallet.ts`. -/
def getErrorMessage (e : RawError) : String :=
  if e.code = some (.num 4001) then
    "Connection rejected by user"
  else if e.code = some (.num (-32002)) then
    "Connection request already pending"
  else
    jsOrStr e.message "An unexpected error occurred"

/-- Source `connect()` of `useWallet.ts`, run to completion against an environment.
Returns the final state, the storage, and the number of upstream
`eth_requestAccounts` calls issued by this invocation. -/
def connect (env : WalletEnv) (s : WalletState) (store : Storage) :
    WalletState × Storage × Nat :=
  -- clearError, then updateState({ isConnecting: true })
  let s1 : WalletState := { s with error := none, isConnecting := true }
  if !env.hasEthereum then
    -- throw new Error('MetaMask not detected. Please install MetaMask.')
    ({ s1 with isConnecting := false,
               error := some (getErrorMessage
                 { message := some "MetaMask not detected. Please install MetaMask." }) },
     store, 0)
  else
    match env.requestAccounts with
    | .error e =>
      ({ s1 with isConnecting := false, error := some (getErrorMessage e) },
       store, 1)
    | .ok accounts =>
      if accounts.isEmpty then
        -- throw new Error('No accounts found')
        ({ s1 with isConnecting := false,
                   error := some (getErrorMessage
                     { message := some "No accounts found" }) },
         store, 1)
      else
        match env.getSigner with
        | .error e =>
          ({ s1 with isConnecting := false, error := some (getErrorMessage e) },
           store, 1)
        | .ok _ =>
          match env.getNetwork with
          | .error e =>
            ({ s1 with isConnecting := false,
                       error := some (getErrorMessage e) },
             store, 1)
          | .ok chainId =>
            ({ s1 with address := accounts.head?,
                       provider := some (),
                       signer := some (),
                       chainId := some chainId,
                       isConnecting := false },
             store.setItem "walletConnected" "true", 1)

/-- Source `disconnect()` of `useWallet.ts`: clears `address`, `provider`, `signer`,
`chainId` and `error`, and removes the persisted marker. -/
def disconnect (s : WalletState) (store : Storage) : WalletState × Storage :=
  ({ s with address := none, provider := none, signer := none,
            chainId := none, error := none },
   store.removeItem "walletConnected")

/-- The environment seen by one `switchNetwork` call. -/
structure SwitchEnv where
  hasEthereum : Bool
  switchChain : Except RawError Unit
  getNetwork : Except RawError Nat
deriving Repr

/-- The catch handler of `switchNetwork`. -/
def switchErrorMessage (e : RawError) : String :=
  if e.code = some (.num 4902) then
    "Network not added to MetaMask"
  else if e.code = some (.num 4001) then
    "Network switch rejected by user"
  else
    "Failed to switch network"

/-- Source `switchNetwork(targetChainId)` of `useWallet.ts`, run to completion.
The target chain id only shapes the request parameters, not the resulting
state. -/
def switchNetwork (env : SwitchEnv) (_targetChainId : Nat) (s : WalletState) :
    WalletState :=
  -- clearError()
  let s1 : WalletState := { s with error := none }
  if !env.hasEthereum then
    -- throw new Error('MetaMask not available'): caught with no code
    { s1 with error := some (switchErrorMessage { message := some "MetaMask not available" }) }
  else
    match env.switchChain with
    | .error e => { s1 with error := some (switchErrorMessage e) }
    | .ok _ =>
      match env.getNetwork with
      | .error e => { s1 with error := some (switchErrorMessage e) }
      | .ok chainId => { s1 with chainId := some chainId }

/-- Two `connect()` calls overlapping in the event-loop model: call A runs
its synchronous prefix (clear error, set `isConnecting`) and suspends at the
account request it has already issued; call B then starts from that
intermediate state and runs to completion.  The value is the total number of
upstream `eth_requestAccounts` calls the two invocations issue. -/
def concurrentConnectUpstreamCalls (env : WalletEnv) : Nat :=
  let midState : WalletState :=
    { emptyWalletState with error := none, isConnecting := true }
  (connect env emptyWalletState ⟨[]⟩).2.2 + (connect env midState ⟨[]⟩).2.2

/-! ## Transaction managers (`contract-calls/README.md` and the secure
transaction service) -/

/-- A mined transaction receipt; `status` is `1` for success, `0` for a
revert. -/
structure TxReceipt where
  status : Nat
deriving DecidableEq, Repr

/-- The `TransactionState` of `TransactionManager`. -/
inductive TxStatus where
  | idle
  | pending
  | success
  | error
deriving DecidableEq, Repr

structure TransactionState where
  hash : Option String := none
  status : TxStatus := .idle
  error : Option String := none
  receipt : Option TxReceipt := none
deriving DecidableEq, Repr

/-- The network outcomes seen by one `TransactionManager.executeTransaction`
call: gas estimation, submission (yielding the hash) and the confirmation
wait (resolving with the mined receipt, or rejecting). -/
structure TxEnv where
  estimateGas : Except RawError Nat
  send : Except RawError String
  waitReceipt : Except RawError TxReceipt
deriving Repr

namespace TransactionManager

/-- Source `TransactionManager.parseError`. -/
def parseError (e : RawError) : String :=
  if e.code = some (.str "USER_REJECTED") then
    "Transaction rejected by user"
  else if e.code = some (.str "INSUFFICIENT_FUNDS") then
    "Insufficient funds"
  else if strTruthy e.reason then
    e.reason.getD ""
  else
    "Transaction failed"

/-- Source `TransactionManager.executeTransaction`, run to completion from the
manager's current state.  Returns the final `TransactionState` together with
the call's own result (the receipt, or the re-thrown raw failure). -/
def executeTransaction (env : TxEnv) (s : TransactionState) :
    TransactionState × Except RawError TxReceipt :=
  let s1 : TransactionState := { s with status := .pending, error := none }
  match env.estimateGas with
  | .error e => ({ s1 with status := .error, error := some (parseError e) }, .error e)
  | .ok _gasEstimate =>
    match env.send with
    | .error e => ({ s1 with status := .error, error := some (parseError e) }, .error e)
    | .ok hash =>
      let s2 : TransactionState := { s1 with status := .pending, hash := some hash }
      match env.waitReceipt with
      | .error e =>
        ({ s2 with status := .error, error := some (parseError e) }, .error e)
      | .ok receipt =>
        ({ s2 with status := .success, receipt := some receipt }, .ok receipt)

end TransactionManager

/-- Source `SECURITY_CONFIG.SUPPORTED_NETWORKS` of the secure transaction service. -/
def SUPPORTED_NETWORKS : List Nat := [1, 5, 137, 80001]

/-- The environment seen by one `executeSecureTransaction` call.  The
confirmation wait is raced against a timeout: it either times out, resolves
with `null`, or resolves with a receipt. -/
structure SecureTxEnv where
  chainId : Nat
  send : Except RawError String
  waitReceipt : Except RawError (Option TxReceipt)
deriving Repr

namespace SecureTransactionService

/-- Source `SecureTransactionService.executeSecureTransaction`: errors are the
thrown failures, success returns the receipt. -/
def executeSecureTransaction (env : SecureTxEnv) :
    Except RawError TxReceipt :=
  if ¬ env.chainId ∈ SUPPORTED_NETWORKS then
    .error { message := some "Transaction attempted on unsupported network" }
  else
    match env.send with
    | .error e => .error e
    | .ok _hash =>
      match env.waitReceipt with
      | .error e => .error e
      | .ok none => .error { message := some "Transaction failed - no receipt" }
      | .ok (some receipt) =>
        if receipt.status = 0 then
          .error { message := some "Transaction reverted" }
        else
          .ok receipt

end SecureTransactionService

/-! ## Multicall batching (`contract-calls/README.md`) -/

/-- One call's outcome inside a multicall chunk: the inner `try`/`catch`
turns an individual failure into `null`. -/
def settleCall {α : Type} : Except Unit α → Option α
  | .ok v => some v
  | .error _ => none

/-- The chunk loop of `multicall` for a positive batch size `bs + 1`: take a
chunk, settle each call, append, and continue with the rest. -/
def multicallChunks {α : Type} (bs : Nat) :
    List (Except Unit α) → List (Option α)
  | [] => []
  | c :: cs =>
    ((c :: cs).take (bs + 1)).map settleCall ++
      multicallChunks bs ((c :: cs).drop (bs + 1))
termination_by l => l.length
decreasing_by simp [List.drop]; omega

/-- Source `multicall(calls, batchSize)`.  For `batchSize = 0` the source's loop
never terminates (the claims only concern positive batch sizes); the model
returns `[]` there. -/
def multicall {α : Type} (outcomes : List (Except Unit α)) :
    Nat → List (Option α)
  | 0 => []
  | bs + 1 => multicallChunks bs outcomes

/-! ## Error logger (`ErrorLogger`) -/

/-- One stored log entry. -/
structure LogEntry where
  timestamp : Nat
  error : Web3Error
  context : Option String := none
deriving DecidableEq, Repr

/-- JS `arr.slice(-n)` for `n : Nat`: the whole array for `n = 0`
(`-0 === 0`), otherwise the last `n` elements. -/
def jsSliceNeg {α : Type} (l : List α) (n : Nat) : List α :=
  if n = 0 then l else l.drop (l.length - n)

namespace ErrorLogger

/-- Source `ErrorLogger.log`: push the entry, then keep only the last 100. -/
def log (logs : List LogEntry) (entry : LogEntry) : List LogEntry :=
  let logs' := logs ++ [entry]
  if logs'.length > 100 then jsSliceNeg logs' 100 else logs'

/-- Source `ErrorLogger.getRecentErrors(limit)` (default 10): `logs.slice(-limit)`. -/
def getRecentErrors (logs : List LogEntry) (limit : Nat := 10) :
    List LogEntry :=
  jsSliceNeg logs limit

/-- Source `ErrorLogger.clearLogs`. -/
def clearLogs : List LogEntry := []

/-- One operation on the logger singleton. -/
inductive Op where
  | log (entry : LogEntry)
  | clear

/-- Apply one operation to the internal list. -/
def applyOp (logs : List LogEntry) : Op → List LogEntry
  | .log e => log logs e
  | .clear => clearLogs

/-- The internal list after a sequence of operations from a fresh logger. -/
def runOps (ops : List Op) : List LogEntry :=
  ops.foldl applyOp []

end ErrorLogger

/-! ## Spec-side classification cascade (for the refinement statement) -/

/-- Rule 1 signal: the failure carries a recognized "user declined" marker. -/
def userDeclinedSignal (e : RawError) : Prop :=
  e.code = some (.num 4001) ∨ e.code = some (.str "ACTION_REJECTED")

/-- Rule 2 signal: an on-chain balance shortfall. -/
def balanceShortfallSignal (e : RawError) : Prop :=
  e.code = some (.str "INSUFFICIENT_FUNDS")

/-- Transport/connectivity signal: the dedicated code, or a message
mentioning the network. -/
def transportSignal (e : RawError) : Prop :=
  e.code = some (.str "NETWORK_ERROR") ∨ ErrorParser.msgIncludes e "network" = true

/-- Revert signal: a carried (truthy) revert reason, or a message matching
the revert pattern. -/
def revertSignal (e : RawError) : Prop :=
  strTruthy e.reason = true ∨ ErrorParser.msgIncludes e "revert" = true

/-- Estimate-failure signal: the resource estimate could not be computed. -/
def estimateFailureSignal (e : RawError) : Prop :=
  e.code = some (.str "UNPREDICTABLE_GAS_LIMIT")

instance : DecidablePred userDeclinedSignal := fun _ => by
  unfold userDeclinedSignal; infer_instance

instance : DecidablePred balanceShortfallSignal := fun _ => by
  unfold balanceShortfallSignal; infer_instance

instance : DecidablePred transportSignal := fun _ => by
  unfold transportSignal; infer_instance

instance : DecidablePred revertSignal := fun _ => by
  unfold revertSignal; infer_instance

instance : DecidablePred estimateFailureSignal := fun _ => by
  unfold estimateFailureSignal; infer_instance

/-- The priority cascade as the code actually orders it (the amended form of
the spec's seven rules): user-declined, balance shortfall, transport, revert,
estimate failure mapped to the contract-reverted kind, unknown. -/
def classifierAmendedKind (e : RawError) : ErrorType :=
  if userDeclinedSignal e then .USER_REJECTED
  else if balanceShortfallSignal e then .INSUFFICIENT_FUNDS
  else if transportSignal e then .NETWORK_ERROR
  else if revertSignal e then .CONTRACT_ERROR
  else if estimateFailureSignal e then .CONTRACT_ERROR
  else .UNKNOWN_ERROR

/-! ## Concrete fixtures for witnesses and counterexamples -/

/-- A failure that both signals a transport problem and carries a revert
reason. -/
def networkAndRevertError : RawError :=
  { code := some (.str "NETWORK_ERROR"), reason := some "Insufficient allowance" }

/-- A contract revert whose reason mentions the connection. -/
def connectionRevertError : RawError :=
  { reason := some "connection lost" }

/-- An operation whose every invocation fails with a user-declined signal. -/
def opUserRej : Nat → Except Thrown Nat :=
  fun _ => .error (.raw { code := some (.num 4001) })

/-- An operation whose every invocation fails with a transport signal. -/
def opNet : Nat → Except Thrown Nat :=
  fun _ => .error (.raw { code := some (.str "NETWORK_ERROR") })

/-- The raw failures produced by `opNet`, indexed by attempt. -/
def rawsNet : Nat → Thrown :=
  fun _ => .raw { code := some (.str "NETWORK_ERROR") }

/-- A wallet environment in which every upstream call succeeds. -/
def walletEnvOK : WalletEnv :=
  { hasEthereum := true, requestAccounts := .ok ["0xabc"],
    getSigner := .ok (), getNetwork := .ok 1 }

/-- A network-switch environment in which every upstream call succeeds. -/
def switchEnvOK : SwitchEnv :=
  { hasEthereum := true, switchChain := .ok (), getNetwork := .ok 137 }

/-- A network-switch environment in which the wallet does not know the
target network (code 4902). -/
def switchEnvUnknownNetwork : SwitchEnv :=
  { hasEthereum := true, switchChain := .error { code := some (.num 4902) },
    getNetwork := .ok 137 }

/-- A transaction environment whose confirmation wait resolves with a mined
receipt carrying revert status 0. -/
def revertTxEnv : TxEnv :=
  { estimateGas := .ok 100000, send := .ok "0xdead", waitReceipt := .ok ⟨0⟩ }

/-- A fresh `TransactionManager` record. -/
def freshTxState : TransactionState := {}

/-- A sample log entry. -/
def sampleEntry : LogEntry :=
  { timestamp := 0, error := { type := .UNKNOWN_ERROR, message := "m" } }

/-- The spec's 25-call batch scenario: every call succeeds with its own index
except the one at index 14, which fails. -/
def batch25 : List (Except Unit Nat) :=
  (List.range 25).map fun i => if i = 14 then .error () else .ok i

/-- Whether an `Except` outcome is a success. -/
def exceptOk {ε α : Type} : Except ε α → Bool
  | .ok _ => true
  | .error _ => false

/-- Whether a `switchNetwork` run takes the success path: the wallet object
exists and both awaited calls succeed. -/
def switchSucceeds (env : SwitchEnv) : Bool :=
  env.hasEthereum && exceptOk env.switchChain && exceptOk env.getNetwork

/-! ## Helper lemmas -/

/-- Removing a key makes a subsequent lookup of that key miss. -/
theorem Storage.getItem_removeItem (st : Storage) (key : String) :
    (st.removeItem key).getItem key = none := by
  unfold Storage.getItem Storage.removeItem
  simp only [Option.map_eq_none', List.find?_eq_none, List.mem_filter,
    decide_eq_true_eq, and_imp]
  intro kv _ hne
  simpa using hne

/-! ## Claim theorems -/

/-- C7: with the default 20% safety margin the submitted gas limit is the
network's estimate times (100 + 20) divided by 100 in exact integer
arithmetic; an estimate of 100,000 yields exactly 120,000. -/
theorem gas_buffer_default_margin :
    (∀ gasEstimate : Nat,
        GasUtils.estimateGasWithBuffer gasEstimate =
          gasEstimate * (100 + 20) / 100) ∧
    GasUtils.estimateGasWithBuffer 100000 = 120000 :=
  ⟨fun _ => rfl, by decide⟩

/-- C1 counterexample: a failure that both carries a revert reason and
signals a transport problem (code `NETWORK_ERROR`) is classified
`NETWORK_ERROR` by `ErrorParser.parse`, not `CONTRACT_ERROR` as the claim's
rule order demands. -/
theorem classifier_network_beats_revert_counterexample :
    (ErrorParser.parse networkAndRevertError).type = .NETWORK_ERROR ∧
    (ErrorParser.parse networkAndRevertError).type ≠ .CONTRACT_ERROR := by
  decide

/-- C1 amended: `ErrorParser.parse` assigns kinds by the first-match cascade
user-declined → userRejected, balance shortfall → insufficientFunds,
transport → networkError, carried/extracted revert reason → contractReverted,
estimate failure → contractReverted (not validationError), else unknown —
i.e. the transport rule precedes the revert rule. -/
theorem classifier_kind_matches_amended_cascade :
    ∀ e : RawError, (ErrorParser.parse e).type = classifierAmendedKind e := by
  intro e
  unfold ErrorParser.parse classifierAmendedKind userDeclinedSignal
    balanceShortfallSignal transportSignal revertSignal estimateFailureSignal
  split_ifs <;> rfl

/-- C2 counterexample: a failure classified `CONTRACT_ERROR` whose message
mentions the connection is reported retryable by
`TransactionErrorTracker.isRetryable`, contradicting "false for every error
of kind contractReverted regardless of the message". -/
theorem isRetryable_contract_error_counterexample :
    (ErrorParser.parse connectionRevertError).type = .CONTRACT_ERROR ∧
    TransactionErrorTracker.isRetryable (ErrorParser.parse connectionRevertError) =
      true := by
  decide

/-- C2 amended: `isRetryable` returns true exactly for kinds networkError and
unknown, and additionally for contractReverted errors whose lower-cased
message contains "network", "timeout" or "connection"; it is false for
userRejected, insufficientFunds and validationError. -/
theorem isRetryable_true_iff :
    ∀ w : Web3Error,
      TransactionErrorTracker.isRetryable w = true ↔
        (w.type = .NETWORK_ERROR ∨ w.type = .UNKNOWN_ERROR ∨
          (w.type = .CONTRACT_ERROR ∧
            (strIncludes (strToLower w.message) "network" = true ∨
             strIncludes (strToLower w.message) "timeout" = true ∨
             strIncludes (strToLower w.message) "connection" = true))) := by
  intro w
  unfold TransactionErrorTracker.isRetryable
  rcases w with ⟨t, m, c, o⟩
  cases t <;> simp [List.any_cons, List.any_nil, or_assoc]

/-- C4 counterexample: `disconnect()` called while a connect is in flight
leaves `isConnecting` true, so the state is not reset to empty. -/
theorem disconnect_leaves_isConnecting_counterexample :
    ((disconnect { emptyWalletState with isConnecting := true } ⟨[]⟩).1).isConnecting =
      true ∧
    (disconnect { emptyWalletState with isConnecting := true } ⟨[]⟩).1 ≠
      emptyWalletState := by
  decide

/-- C4 amended: for every prior state, `disconnect()` synchronously clears
`address`, `provider`, `signer`, `chainId` and the stored error, removes the
session-restoration marker, and always succeeds — but leaves `isConnecting`
unchanged. -/
theorem disconnect_resets_except_isConnecting :
    ∀ (s : WalletState) (store : Storage),
      disconnect s store =
        ({ address := none, provider := none, signer := none, chainId := none,
           isConnecting := s.isConnecting, error := none },
         store.removeItem "walletConnected") ∧
      Storage.getItem (disconnect s store).2 "walletConnected" = none :=
  fun s store => ⟨rfl, Storage.getItem_removeItem store _⟩

/-- C6: when the confirmation wait resolves with a mined receipt of revert
status 0, `TransactionManager.executeTransaction` transitions its record to
`success` holding that receipt (it never checks `receipt.status`), while the
repository's own `SecureTransactionService.executeSecureTransaction` throws
"Transaction reverted" on the same receipt — the claim matches the latter
and the spec's stated intent, so the manager is the slip. -/
theorem mined_revert_reaches_success_bug :
    (TransactionManager.executeTransaction revertTxEnv freshTxState).1.status =
      .success ∧
    (TransactionManager.executeTransaction revertTxEnv freshTxState).1.receipt =
      some ⟨0⟩ ∧
    SecureTransactionService.executeSecureTransaction
        { chainId := 1, send := .ok "0xdead", waitReceipt := .ok (some ⟨0⟩) } =
      .error { code := none, message := some "Transaction reverted",
               reason := none } :=
  ⟨rfl, rfl, rfl⟩

/-- C9 counterexample: on a successful network switch, the stored error is
also modified (cleared to `none`), not only `chainId`. -/
theorem switchNetwork_clears_error_counterexample :
    (switchNetwork switchEnvOK 137
        { emptyWalletState with address := some "0xabc", chainId := some 1,
                                error := some "previous failure" }).error = none ∧
    some "previous failure" ≠ (none : Option String) := by
  decide

/-- C9 amended: for every environment, target chain and prior state,
`switchNetwork` leaves `address`, `provider`, `signer` and `isConnecting`
unchanged; on success it refreshes `chainId` from the wallet and clears the
stored error; on any failure it leaves `chainId` unchanged and only stores
an error message. -/
theorem switchNetwork_frame :
    ∀ (env : SwitchEnv) (target : Nat) (s : WalletState),
      (switchNetwork env target s).address = s.address ∧
      (switchNetwork env target s).provider = s.provider ∧
      (switchNetwork env target s).signer = s.signer ∧
      (switchNetwork env target s).isConnecting = s.isConnecting ∧
      (∀ c : Nat, env.hasEthereum = true → env.switchChain = .ok () →
        env.getNetwork = .ok c →
        (switchNetwork env target s).chainId = some c ∧
        (switchNetwork env target s).error = none) ∧
      (switchSucceeds env = false →
        (switchNetwork env target s).chainId = s.chainId ∧
        ∃ msg, (switchNetwork env target s).error = some msg) := by
  intro env target s
  rcases env with ⟨he, sc, gn⟩
  cases he <;> rcases sc with e | ⟨⟩ <;> rcases gn with e2 | c2 <;>
    simp [switchNetwork, switchSucceeds, exceptOk]

/-- C9 witness: the frame theorem applied to a concrete successful switch
and a concrete unknown-network failure. -/
theorem switchNetwork_frame_witness :
    (switchNetwork switchEnvOK 137
        { emptyWalletState with address := some "0xabc" }).address = some "0xabc" ∧
    (switchNetwork switchEnvOK 137
        { emptyWalletState with address := some "0xabc" }).chainId = some 137 ∧
    (switchNetwork switchEnvOK 137
        { emptyWalletState with address := some "0xabc" }).error = none ∧
    (switchNetwork switchEnvUnknownNetwork 137 emptyWalletState).chainId = none ∧
    ∃ msg, (switchNetwork switchEnvUnknownNetwork 137 emptyWalletState).error =
      some msg := by
  obtain ⟨h1, -, -, -, h5, -⟩ :=
    switchNetwork_frame switchEnvOK 137 { emptyWalletState with address := some "0xabc" }
  obtain ⟨-, -, -, -, -, g6⟩ :=
    switchNetwork_frame switchEnvUnknownNetwork 137 emptyWalletState
  obtain ⟨hc, herr⟩ := h5 137 rfl rfl rfl
  obtain ⟨gc, gerr⟩ := g6 (by decide)
  exact ⟨h1, hc, herr, gc, gerr⟩

/-- C5 helper: any completed `connect()` run in an environment where the
wallet object exists issues exactly one upstream account request, whatever
the prior state — in particular also when another connect is in flight. -/
theorem connect_request_count (env : WalletEnv) (s : WalletState)
    (store : Storage) (h : env.hasEthereum = true) :
    (connect env s store).2.2 = 1 := by
  rcases env with ⟨he, ra, gs, gn⟩
  subst h
  rcases ra with e | accounts
  · simp [connect]
  · rcases gs with e | ⟨⟩ <;> rcases gn with e2 | c <;>
      by_cases ha : accounts.isEmpty <;> simp [connect, ha]

/-- C5 amended: `connect()` has no in-flight guard — it issues one upstream
account request regardless of the prior state, so two `connect()` calls
overlapping before either resolves issue two upstream account requests, not
one. -/
theorem connect_no_inflight_guard :
    (∀ (env : WalletEnv) (s : WalletState) (store : Storage),
        env.hasEthereum = true → (connect env s store).2.2 = 1) ∧
    (∀ env : WalletEnv, env.hasEthereum = true →
        concurrentConnectUpstreamCalls env = 2) :=
  ⟨fun env s store h => connect_request_count env s store h,
   fun env h => by
    have h1 := connect_request_count env emptyWalletState ⟨[]⟩ h
    have h2 := connect_request_count env
      { emptyWalletState with error := none, isConnecting := true } ⟨[]⟩ h
    simp [concurrentConnectUpstreamCalls, h1, h2]⟩

/-- C5 counterexample: in an environment where every upstream call succeeds,
two overlapping `connect()` calls issue two `eth_requestAccounts` calls. -/
theorem concurrent_connect_two_requests_counterexample :
    concurrentConnectUpstreamCalls walletEnvOK = 2 ∧ (2 : Nat) ≠ 1 := by
  decide

/-- C5 witness: the amended theorem applied to the all-success environment,
starting from a state with a connect already in flight. -/
theorem connect_no_inflight_guard_witness :
    (connect walletEnvOK { emptyWalletState with isConnecting := true }
        ⟨[]⟩).2.2 = 1 ∧
    concurrentConnectUpstreamCalls walletEnvOK = 2 :=
  ⟨connect_no_inflight_guard.1 walletEnvOK
      { emptyWalletState with isConnecting := true } ⟨[]⟩ rfl,
   connect_no_inflight_guard.2 walletEnvOK rfl⟩

/-- C10 helper: one `log` call never leaves more than 100 entries. -/
theorem log_length_le (logs : List LogEntry) (e : LogEntry) :
    (ErrorLogger.log logs e).length ≤ 100 := by
  simp only [ErrorLogger.log, jsSliceNeg]
  by_cases hlen : (logs ++ [e]).length > 100
  · rw [if_pos hlen, if_neg (by decide : ¬ (100 = 0)), List.length_drop]
    omega
  · rw [if_neg hlen]
    omega

/-- C10 helper: the 100-entry bound is preserved along any operation
sequence. -/
theorem foldl_applyOp_length_le :
    ∀ (ops : List ErrorLogger.Op) (logs : List LogEntry),
      logs.length ≤ 100 → (ops.foldl ErrorLogger.applyOp logs).length ≤ 100
  | [], _, h => h
  | op :: ops, logs, h => by
    refine foldl_applyOp_length_le ops _ ?_
    cases op with
    | log e => exact log_length_le logs e
    | clear => simp [ErrorLogger.applyOp, ErrorLogger.clearLogs]

/-- C10 counterexample: `getRecentErrors(0)` returns the whole log
(`slice(-0)` is `slice(0)`), so its result can exceed the limit. -/
theorem getRecentErrors_zero_counterexample :
    (ErrorLogger.getRecentErrors [sampleEntry] 0).length = 1 ∧ ¬ (1 ≤ 0) := by
  constructor
  · rfl
  · decide

/-- C10 amended: after any sequence of `log`/`clearLogs` operations the
internal list holds at most 100 entries; trimming keeps a suffix (the most
recent entries), dropping the oldest; and `getRecentErrors(limit)` returns
at most `limit` entries — the most recently logged suffix — for every
`limit ≥ 1`, while `limit = 0` returns the entire log. -/
theorem error_logger_invariant :
    (∀ ops : List ErrorLogger.Op, (ErrorLogger.runOps ops).length ≤ 100) ∧
    (∀ (logs : List LogEntry) (e : LogEntry),
        ErrorLogger.log logs e = (logs ++ [e]).drop (logs.length + 1 - 100)) ∧
    (∀ (logs : List LogEntry) (limit : Nat), 1 ≤ limit →
        (ErrorLogger.getRecentErrors logs limit).length ≤ limit ∧
        ErrorLogger.getRecentErrors logs limit =
          logs.drop (logs.length - limit)) ∧
    (∀ logs : List LogEntry, ErrorLogger.getRecentErrors logs 0 = logs) := by
  refine ⟨fun ops => foldl_applyOp_length_le ops [] (by simp), ?_, ?_, fun logs => rfl⟩
  · intro logs e
    have hle : (logs ++ [e]).length = logs.length + 1 := by simp
    simp only [ErrorLogger.log, jsSliceNeg]
    by_cases hlen : (logs ++ [e]).length > 100
    · rw [if_pos hlen, if_neg (by decide : ¬ (100 = 0)), hle]
    · rw [if_neg hlen]
      have h0 : logs.length + 1 - 100 = 0 := by omega
      rw [h0, List.drop_zero]
  · intro logs limit hlim
    have hne : ¬ limit = 0 := by omega
    simp only [ErrorLogger.getRecentErrors, jsSliceNeg]
    rw [if_neg hne]
    refine ⟨?_, rfl⟩
    rw [List.length_drop]
    omega

/-- C10 witness: the invariant theorem applied to a one-entry log with
`limit = 1`. -/
theorem error_logger_invariant_witness :
    (ErrorLogger.runOps [ErrorLogger.Op.log sampleEntry]).length ≤ 100 ∧
    ErrorLogger.log [] sampleEntry =
      ([] ++ [sampleEntry]).drop (List.length ([] : List LogEntry) + 1 - 100) ∧
    ((ErrorLogger.getRecentErrors [sampleEntry] 1).length ≤ 1 ∧
      ErrorLogger.getRecentErrors [sampleEntry] 1 =
        [sampleEntry].drop ([sampleEntry].length - 1)) ∧
    ErrorLogger.getRecentErrors [sampleEntry] 0 = [sampleEntry] :=
  ⟨error_logger_invariant.1 [ErrorLogger.Op.log sampleEntry],
   error_logger_invariant.2.1 [] sampleEntry,
   error_logger_invariant.2.2.1 [sampleEntry] 1 (by decide),
   error_logger_invariant.2.2.2 [sampleEntry]⟩

/-- C8 helper: for a positive batch size `bs + 1` the chunk loop settles
every call in input order. -/
theorem multicallChunks_eq_map {α : Type} (bs : Nat) :
    ∀ (n : Nat) (l : List (Except Unit α)), l.length ≤ n →
      multicallChunks bs l = l.map settleCall := by
  intro n
  induction n with
  | zero =>
    intro l h
    have : l = [] := by
      cases l with
      | nil => rfl
      | cons c cs => simp at h
    subst this
    simp [multicallChunks]
  | succ n ih =>
    intro l h
    cases l with
    | nil => simp [multicallChunks]
    | cons c cs =>
      rw [multicallChunks]
      rw [ih ((c :: cs).drop (bs + 1)) (by simp at h ⊢; omega)]
      rw [← List.map_append, List.take_append_drop]

/-- C8: for every list of read-only call outcomes and every positive batch
size, `multicall` returns one entry per input call in input order: a failed
call is `null` at its own position and every successful call's value sits at
its own position, so no sibling is affected by another call's failure. -/
theorem multicall_matches_inputs :
    ∀ {α : Type} (outcomes : List (Except Unit α)) (batchSize : Nat),
      0 < batchSize →
      multicall outcomes batchSize = outcomes.map settleCall ∧
      (multicall outcomes batchSize).length = outcomes.length := by
  intro α outcomes batchSize h
  match batchSize, h with
  | bs + 1, _ =>
    have hm := multicallChunks_eq_map bs outcomes.length outcomes (le_refl _)
    refine ⟨hm, ?_⟩
    rw [show multicall outcomes (bs + 1) = multicallChunks bs outcomes from rfl, hm]
    simp

/-- C8 witness: the spec's 25-call scenario with batch size 10 and a single
failure at index 14. -/
theorem multicall_matches_inputs_witness :
    0 < 10 ∧
    multicall batch25 10 = batch25.map settleCall ∧
    (multicall batch25 10).length = batch25.length :=
  ⟨by decide, (multicall_matches_inputs batch25 10 (by decide)).1,
   (multicall_matches_inputs batch25 10 (by decide)).2⟩

/-- C3 helper: peeling one element off an exponential back-off range. -/
theorem range_map_pow_succ (d a k : Nat) :
    (List.range (k + 1)).map (fun i => d * 2 ^ (a + i)) =
      d * 2 ^ a :: (List.range k).map (fun i => d * 2 ^ (a + 1 + i)) := by
  rw [List.range_succ_eq_map, List.map_cons, List.map_map, List.cons.injEq]
  refine ⟨by norm_num, List.map_congr_left fun i _ => ?_⟩
  show d * 2 ^ (a + (i + 1)) = d * 2 ^ (a + 1 + i)
  have h : a + (i + 1) = a + 1 + i := by omega
  rw [h]

/-- C3 helper: the retry loop makes at least one attempt. -/
theorem retryFrom_attempts_pos {α : Type} (d : Nat) (op : Nat → Except Thrown α)
    (sr : Option (Web3Error → Bool)) (a rem : Nat) :
    1 ≤ (ErrorHandler.retryFrom d op sr a rem).2.1 := by
  unfold ErrorHandler.retryFrom
  cases hop : op a with
  | ok v => simp
  | error t =>
    simp only []
    split_ifs <;> try simp
    cases rem <;> simp

/-- C3 helper: with `remaining` iterations left, the retry loop makes at
most `remaining + 1` attempts. -/
theorem retryFrom_attempts_le {α : Type} (d : Nat) (op : Nat → Except Thrown α)
    (sr : Option (Web3Error → Bool)) :
    ∀ (rem a : Nat), (ErrorHandler.retryFrom d op sr a rem).2.1 ≤ rem + 1 := by
  intro rem
  induction rem with
  | zero =>
    intro a
    unfold ErrorHandler.retryFrom
    cases hop : op a with
    | ok v => simp
    | error t =>
      simp only []
      split_ifs <;> simp
  | succ r ih =>
    intro a
    unfold ErrorHandler.retryFrom
    cases hop : op a with
    | ok v => simp
    | error t =>
      simp only []
      split_ifs <;> try simp
      have := ih (a + 1)
      omega

/-- C3 helper: the awaited delays are exactly `retryDelay * 2 ^ attempt` for
the successive attempts, one fewer than the number of attempts. -/
theorem retryFrom_delays {α : Type} (d : Nat) (op : Nat → Except Thrown α)
    (sr : Option (Web3Error → Bool)) :
    ∀ (rem a : Nat),
      (ErrorHandler.retryFrom d op sr a rem).2.2 =
        (List.range ((ErrorHandler.retryFrom d op sr a rem).2.1 - 1)).map
          (fun i => d * 2 ^ (a + i)) := by
  intro rem
  induction rem with
  | zero =>
    intro a
    unfold ErrorHandler.retryFrom
    cases hop : op a with
    | ok v => simp
    | error t =>
      simp only []
      split_ifs <;> simp
  | succ r ih =>
    intro a
    unfold ErrorHandler.retryFrom
    cases hop : op a with
    | ok v => simp
    | error t =>
      simp only []
      split_ifs <;> try simp
      have hpos := retryFrom_attempts_pos d op sr (a + 1) r
      obtain ⟨k, hk⟩ : ∃ k, (ErrorHandler.retryFrom d op sr (a + 1) r).2.1 = k + 1 :=
        ⟨(ErrorHandler.retryFrom d op sr (a + 1) r).2.1 - 1, by omega⟩
      rw [ih (a + 1), hk]
      simp only [Nat.add_sub_cancel]
      rw [range_map_pow_succ]

/-- C3 helper: the loop stops at once on a user-rejected classification,
whatever the predicate and however many iterations remain. -/
theorem retryFrom_stop_userRejected {α : Type} (d : Nat)
    (op : Nat → Except Thrown α) (sr : Option (Web3Error → Bool))
    (a rem : Nat) (t : Thrown) (hop : op a = .error t)
    (hur : (ErrorParser.parseAny t).type = .USER_REJECTED) :
    ErrorHandler.retryFrom d op sr a rem =
      (.error (ErrorParser.parseAny t), 1, []) := by
  unfold ErrorHandler.retryFrom
  rw [hop]
  simp [hur]

/-- C3 helper: the loop stops at once when the supplied predicate rejects
the classified (non-user-rejected) error. -/
theorem retryFrom_stop_pred {α : Type} (d : Nat) (op : Nat → Except Thrown α)
    (p : Web3Error → Bool) (a rem : Nat) (t : Thrown) (hop : op a = .error t)
    (hur : (ErrorParser.parseAny t).type ≠ .USER_REJECTED)
    (hp : p (ErrorParser.parseAny t) = false) :
    ErrorHandler.retryFrom d op (some p) a rem =
      (.error (ErrorParser.parseAny t), 1, []) := by
  unfold ErrorHandler.retryFrom
  rw [hop]
  simp [hur, hp]

/-- C3 helper: when every attempt fails with a non-user-rejected error and
no predicate is supplied, the loop exhausts all its iterations, makes
`remaining + 1` attempts, waits the exponential back-off delays, and throws
the classification of the last failure. -/
theorem retryFrom_all_fail {α : Type} (d : Nat) (op : Nat → Except Thrown α)
    (raws : Nat → Thrown) (hop : ∀ i, op i = .error (raws i))
    (hur : ∀ i, (ErrorParser.parseAny (raws i)).type ≠ .USER_REJECTED) :
    ∀ (rem a : Nat),
      ErrorHandler.retryFrom d op none a rem =
        (.error (ErrorParser.parseAny (raws (a + rem))), rem + 1,
          (List.range rem).map fun i => d * 2 ^ (a + i)) := by
  intro rem
  induction rem with
  | zero =>
    intro a
    unfold ErrorHandler.retryFrom
    rw [hop a]
    simp [hur a]
  | succ r ih =>
    intro a
    unfold ErrorHandler.retryFrom
    rw [hop a]
    simp only [hur a, if_false, ih (a + 1)]
    have h1 : a + 1 + r = a + (r + 1) := by omega
    rw [h1, range_map_pow_succ]
    simp

/-- C3: the retry helper invokes the operation at most `maxRetries + 1`
times (4 at the default of 3 retries); the delays between attempts are
`retryDelay * 2 ^ attempt`; a user-rejected classification stops the loop
after the failing attempt regardless of the predicate; a predicate returning
false stops it likewise; and when every attempt fails (no predicate, never
user-rejected) all `maxRetries + 1` attempts are made and the thrown value
is the classified form of the last failure, not the raw one. -/
theorem handleWithRetry_spec :
    (∀ (α : Type) (maxRetries retryDelay : Nat) (op : Nat → Except Thrown α)
        (shouldRetry : Option (Web3Error → Bool)),
        (ErrorHandler.handleWithRetry maxRetries retryDelay op shouldRetry).2.1 ≤
          maxRetries + 1) ∧
    (∀ (α : Type) (maxRetries retryDelay : Nat) (op : Nat → Except Thrown α)
        (shouldRetry : Option (Web3Error → Bool)),
        (ErrorHandler.handleWithRetry maxRetries retryDelay op shouldRetry).2.2 =
          (List.range
            ((ErrorHandler.handleWithRetry maxRetries retryDelay op shouldRetry).2.1 -
              1)).map (fun i => retryDelay * 2 ^ i)) ∧
    (∀ (α : Type) (retryDelay : Nat) (op : Nat → Except Thrown α)
        (shouldRetry : Option (Web3Error → Bool)) (a rem : Nat) (t : Thrown),
        op a = .error t → (ErrorParser.parseAny t).type = .USER_REJECTED →
        ErrorHandler.retryFrom retryDelay op shouldRetry a rem =
          (.error (ErrorParser.parseAny t), 1, [])) ∧
    (∀ (α : Type) (retryDelay : Nat) (op : Nat → Except Thrown α)
        (p : Web3Error → Bool) (a rem : Nat) (t : Thrown),
        op a = .error t → (ErrorParser.parseAny t).type ≠ .USER_REJECTED →
        p (ErrorParser.parseAny t) = false →
        ErrorHandler.retryFrom retryDelay op (some p) a rem =
          (.error (ErrorParser.parseAny t), 1, [])) ∧
    (∀ (α : Type) (maxRetries retryDelay : Nat) (op : Nat → Except Thrown α)
        (raws : Nat → Thrown),
        (∀ i, op i = .error (raws i)) →
        (∀ i, (ErrorParser.parseAny (raws i)).type ≠ .USER_REJECTED) →
        ErrorHandler.handleWithRetry maxRetries retryDelay op none =
          (.error (ErrorParser.parseAny (raws maxRetries)), maxRetries + 1,
            (List.range maxRetries).map fun i => retryDelay * 2 ^ i)) := by
  refine ⟨?_, ?_, ?_, ?_, ?_⟩
  · intro α m d op sr
    exact retryFrom_attempts_le d op sr m 0
  · intro α m d op sr
    rw [ErrorHandler.handleWithRetry, retryFrom_delays d op sr m 0]
    simp only [Nat.zero_add]
  · intro α d op sr a rem t hop hur
    exact retryFrom_stop_userRejected d op sr a rem t hop hur
  · intro α d op p a rem t hop hur hp
    exact retryFrom_stop_pred d op p a rem t hop hur hp
  · intro α m d op raws hop hur
    rw [ErrorHandler.handleWithRetry, retryFrom_all_fail d op raws hop hur m 0]
    simp only [Nat.zero_add]

/-- C3 witness: the retry theorem applied to a concrete always-user-rejected
operation, a concrete always-network-failing operation with an
always-false predicate, and the same network-failing operation with no
predicate at the default three retries. -/
theorem handleWithRetry_spec_witness :
    (ErrorHandler.handleWithRetry 3 1000 opUserRej none).2.1 ≤ 3 + 1 ∧
    ErrorHandler.retryFrom 1000 opUserRej none 0 3 =
      (.error (ErrorParser.parseAny (.raw { code := some (.num 4001) })), 1, []) ∧
    ErrorHandler.retryFrom 7 opNet (some fun _ => false) 0 3 =
      (.error (ErrorParser.parseAny (.raw { code := some (.str "NETWORK_ERROR") })),
        1, []) ∧
    ErrorHandler.handleWithRetry 3 1000 opNet none =
      (.error (ErrorParser.parseAny (rawsNet 3)), 3 + 1,
        (List.range 3).map fun i => 1000 * 2 ^ i) :=
  ⟨handleWithRetry_spec.1 Nat 3 1000 opUserRej none,
   handleWithRetry_spec.2.2.1 Nat 1000 opUserRej none 0 3
     (.raw { code := some (.num 4001) }) rfl (by decide),
   handleWithRetry_spec.2.2.2.1 Nat 7 opNet (fun _ => false) 0 3
     (.raw { code := some (.str "NETWORK_ERROR") }) rfl (by decide) rfl,
   handleWithRetry_spec.2.2.2.2 Nat 3 1000 opNet rawsNet
     (fun _ => rfl)
     (fun _ => by
       show (ErrorParser.parseAny
           (.raw { code := some (.str "NETWORK_ERROR") })).type ≠ .USER_REJECTED
       decide)⟩
